import Mathlib

/-!
Shallow embedding of src/utils/rate_limit_manager.py (rate-limit governor
for a quota-limited HTTP API) and proofs about its behaviour.

Modelling conventions:
- Python floats are modelled as exact rationals (the spec states all numeric
  properties exactly); Python unbounded ints as Int/Nat.
- Python dicts keyed by strings are modelled as functions String to Option.
- datetime values are modelled as integer epoch seconds (UTC).
- random.uniform samples are passed in explicitly as parameters.
- A raised exception is modelled as an error value: functions that can raise
  return Option (none = the exception) or a dedicated result constructor.
- time.sleep calls are recorded as trace events carrying the argument the
  code would compute, not performed.
-/

/-- Configuration for rate limit handling (dataclass RateLimitConfig). -/
structure RateLimitConfig where
  max_retries : Nat
  initial_delay : ℚ
  max_delay : ℚ
  backoff_factor : ℚ
  rate_limit_threshold : ℚ
  enable_jitter : Bool
  jitter_factor : ℚ

/-- The dataclass defaults: max_retries=5, initial_delay=1.0, max_delay=3600.0,
backoff_factor=2.0, rate_limit_threshold=0.1, enable_jitter=True, jitter_factor=0.1. -/
def defaultConfig : RateLimitConfig :=
  { max_retries := 5
    initial_delay := 1
    max_delay := 3600
    backoff_factor := 2
    rate_limit_threshold := 1/10
    enable_jitter := true
    jitter_factor := 1/10 }

/-- class BackoffStrategy: exponential backoff with optional jitter. -/
structure BackoffStrategy where
  initial_delay : ℚ
  max_delay : ℚ
  factor : ℚ
  enable_jitter : Bool
  jitter_factor : ℚ

/-- BackoffStrategy.get_delay. The random.uniform(0, jitter_factor * delay)
sample is passed in explicitly as jitterSample. -/
def BackoffStrategy.get_delay (b : BackoffStrategy) (attempt : Nat) (jitterSample : ℚ) : ℚ :=
  let delay := min (b.initial_delay * b.factor ^ attempt) b.max_delay
  if b.enable_jitter then delay + jitterSample else delay

/-- Decimal digit value of a character, none for a non-digit. -/
def decDigit (c : Char) : Option Nat :=
  if c.isDigit then some (c.toNat - Char.toNat (Char.ofNat 48)) else none

/-- Accumulate a decimal number over a list of characters; none on any non-digit. -/
def pyDigitsAux : List Char → Nat → Option Nat
  | [], acc => some acc
  | c :: cs, acc =>
    match decDigit c with
    | some d => pyDigitsAux cs (acc * 10 + d)
    | none => none

/-- A nonempty all-decimal-digit string as a number. -/
def pyDigits : List Char → Option Nat
  | [] => none
  | l => pyDigitsAux l 0

/-- Strip leading and trailing whitespace from a character list. -/
def trimChars (l : List Char) : List Char :=
  ((l.dropWhile Char.isWhitespace).reverse.dropWhile Char.isWhitespace).reverse

/-- Model of the Python built-in int(str): surrounding whitespace stripped, an
optional sign, then a nonempty run of decimal digits; none models the
ValueError on anything else. (Underscore grouping and non-ASCII digits,
which the real builtin also accepts, are not modelled; no header in scope
uses them.) -/
def pyInt (s : String) : Option Int :=
  match trimChars s.toList with
  | [] => none
  | c :: rest =>
    if c == Char.ofNat 43 then (pyDigits rest).map (fun n => (n : Int))
    else if c == Char.ofNat 45 then (pyDigits rest).map (fun n => -(n : Int))
    else (pyDigits (c :: rest)).map (fun n => (n : Int))

/-- A header mapping (dict of string keys to string values). -/
def Headers : Type := String → Option String

/-- int(headers.get(key, 0)): an absent key yields the integer default 0,
a present value goes through int(). -/
def headerInt (h : Headers) (key : String) : Option Int :=
  match h key with
  | none => some 0
  | some v => pyInt v

/-- The parsed rate-limit dict: limit/remaining/reset/used. reset holds the
epoch seconds handed to datetime.fromtimestamp. -/
structure QuotaSnapshot where
  limit : Int
  remaining : Int
  reset : Int
  used : Int
deriving DecidableEq

/-- RateLimitManager._parse_rate_limit_headers: builds the dict field by field
in source order; the first int() that raises ValueError aborts the dict
literal and the except-branch returns the empty dict (here none). -/
def parse_rate_limit_headers (h : Headers) : Option QuotaSnapshot :=
  match headerInt h "X-RateLimit-Limit" with
  | none => none
  | some l =>
    match headerInt h "X-RateLimit-Remaining" with
    | none => none
    | some r =>
      match headerInt h "X-RateLimit-Reset" with
      | none => none
      | some t =>
        match headerInt h "X-RateLimit-Used" with
        | none => none
        | some u => some { limit := l, remaining := r, reset := t, used := u }

/-- RateLimitManager._should_retry, with the retry counter for the operation
passed in (the dict lookup self.retry_counts[operation_id]).
Returns none exactly where the source raises ZeroDivisionError: the
remaining/limit division is reached with limit = 0. -/
def should_retry (cfg : RateLimitConfig) (count : Nat) (info : QuotaSnapshot) : Option Bool :=
  if cfg.max_retries ≤ count then some false
  else if info.limit = 0 then none
  else some (decide ((info.remaining : ℚ) / (info.limit : ℚ) ≤ cfg.rate_limit_threshold))

/-- RateLimitManager._wait_for_reset: returns the seconds slept; when
reset_time is not in the future, time.sleep is not called (0 seconds). -/
def wait_for_reset (now reset_time : Int) : Int :=
  if now < reset_time then reset_time - now else 0

/-- Mutable state of a RateLimitManager instance: the rate_limits and
retry_counts dicts. -/
structure GovState where
  rate_limits : String → Option QuotaSnapshot
  retry_counts : String → Option Nat

/-- RateLimitManager.reset_counts. The source branches on the truthiness test
"if operation_id:", so both None and the falsy empty string take the
clear-the-whole-dict branch; only a non-empty id is popped from the dict.
rate_limits is untouched either way. -/
def reset_counts (s : GovState) (operation_id : Option String) : GovState :=
  match operation_id with
  | some oid =>
    if oid = "" then { s with retry_counts := fun _ => none }
    else { s with retry_counts := fun k => if k = oid then none else s.retry_counts k }
  | none => { s with retry_counts := fun _ => none }

/-- RateLimitManager.get_rate_limit_info: self.rate_limits.get with the empty
dict as default, the empty dict being none here. -/
def get_rate_limit_info (s : GovState) (operation_id : String) : Option QuotaSnapshot :=
  s.rate_limits operation_id

/-- Does the first list start with the second? -/
def startsWithChars : List Char → List Char → Bool
  | _, [] => true
  | [], _ :: _ => false
  | c :: cs, p :: ps => c == p && startsWithChars cs ps

/-- Does pat occur as a contiguous sublist of l? (The in operator on str.) -/
def occursIn (l pat : List Char) : Bool :=
  match l with
  | [] => startsWithChars [] pat
  | _ :: cs => startsWithChars l pat || occursIn cs pat

/-- The failure classification in execute_with_retry:
the case-insensitive substring test for the rate-limit signature in str(e),
i.e. "rate limit exceeded" in str(e).lower(). -/
def isRateLimitMessage (msg : String) : Bool :=
  occursIn (msg.toList.map Char.toLower) ("rate limit exceeded".toList)

/-- One invocation of the caller-supplied zero-argument operation: it returns a
value optionally exposing a headers attribute, or raises with a message. -/
inductive OpResult (α : Type) where
  | success (value : α) (hdrs : Option Headers)
  | failure (message : String)

/-- How a call to execute_with_retry ends. exhausted is the final
RuntimeError naming the operation id and the configured max_retries;
propagated is a re-raised exception, carrying its message. -/
inductive ExecResult (α : Type) where
  | ok (value : α) (hdrs : Option Headers)
  | exhausted (op_id : String) (max_retries : Nat)
  | propagated (message : String)

/-- A time.sleep the run performs. preemptive and backoff record the retry
count passed to get_delay (the slept amount is get_delay of that attempt,
jitter sample included); resetWait records the seconds _wait_for_reset
sleeps, 0 when the reset time is already past. -/
inductive WaitEvent where
  | preemptive (attempt : Nat)
  | resetWait (seconds : Int)
  | backoff (attempt : Nat)
deriving DecidableEq

/-- Observable outcome of one call to execute_with_retry: its result, the
manager state it leaves behind, how many times the operation was invoked,
and the sleeps it performed in order. -/
structure RunResult (α : Type) where
  result : ExecResult α
  state : GovState
  invocations : Nat
  waits : List WaitEvent

/-- self.retry_counts[op_id] += 1 (the key is present after setdefault). -/
def bumpCount (s : GovState) (op_id : String) : GovState :=
  { s with retry_counts := (fun k =>
      if k = op_id then some ((s.retry_counts k).getD 0 + 1) else s.retry_counts k) }

/-- The while loop of execute_with_retry. The loop guard
retry_counts[op_id] smaller than max_retries is carried as fuel =
max_retries - retry_counts[op_id] (truncated): fuel = 0 exactly when the
guard fails, and the body increments the counter by exactly one on each
path that loops, so the fuel tracks the guard exactly. op n is the result
of the operation's invocation number n (0-based); now is the wall clock,
fixed for the run. -/
def retryLoop (cfg : RateLimitConfig) (now : Int) (op : Nat → OpResult α)
    (op_id : String) : Nat → GovState → Nat → List WaitEvent → RunResult α
  | 0, s, n, ws => ⟨.exhausted op_id cfg.max_retries, s, n, ws⟩
  | fuel + 1, s, n, ws =>
    match op n with
    | .success v hdrs =>
      match hdrs with
      | none => ⟨.ok v none, s, n + 1, ws⟩
      | some h =>
        match parse_rate_limit_headers h with
        | none =>
          -- the parsed dict is empty and falsy: nothing stored, no check
          ⟨.ok v (some h), s, n + 1, ws⟩
        | some info =>
          -- self.rate_limits[op_id] = rate_info
          let s1 : GovState := { s with rate_limits := (fun k =>
              if k = op_id then some info else s.rate_limits k) }
          let c := (s1.retry_counts op_id).getD 0
          match should_retry cfg c info with
          | some true => ⟨.ok v (some h), s1, n + 1, ws ++ [.preemptive c]⟩
          | some false => ⟨.ok v (some h), s1, n + 1, ws⟩
          | none =>
            -- ZeroDivisionError from _should_retry lands in the except block:
            -- the counter is incremented, and since str(e) lacks the
            -- rate-limit signature the exception is re-raised
            ⟨.propagated "division by zero", bumpCount s1 op_id, n + 1, ws⟩
    | .failure msg =>
      let s1 := bumpCount s op_id
      if isRateLimitMessage msg then
        match s1.rate_limits op_id with
        | some info =>
          -- stored snapshots always carry a reset datetime, and datetime
          -- objects are truthy, so the branch on rate_info.get of reset
          -- is taken whenever a snapshot is stored
          retryLoop cfg now op op_id fuel s1 (n + 1)
            (ws ++ [.resetWait (wait_for_reset now info.reset)])
        | none =>
          retryLoop cfg now op op_id fuel s1 (n + 1)
            (ws ++ [.backoff ((s1.retry_counts op_id).getD 0)])
      else
        ⟨.propagated msg, s1, n + 1, ws⟩

/-- self.retry_counts.setdefault(op_id, 0): store 0 under an absent key,
leave a present one alone. -/
def setDefaultZero (s : GovState) (op_id : String) : GovState :=
  { s with retry_counts := (fun k =>
      if k = op_id then some ((s.retry_counts k).getD 0) else s.retry_counts k) }

/-- RateLimitManager.execute_with_retry, with the operation id already
resolved (the str(hash(operation)) fallback is identifier plumbing outside
this model). First self.retry_counts.setdefault(op_id, 0), then the loop. -/
def execute_with_retry (cfg : RateLimitConfig) (now : Int) (op : Nat → OpResult α)
    (op_id : String) (s : GovState) : RunResult α :=
  let s0 : GovState := setDefaultZero s op_id
  retryLoop cfg now op op_id (cfg.max_retries - (s0.retry_counts op_id).getD 0) s0 0 []

/-! Concrete inputs used to instantiate the theorems below. -/

/-- A fresh manager state: both dicts empty. -/
def emptyState : GovState := ⟨fun _ => none, fun _ => none⟩

/-- An operation that always raises a failure without the rate-limit signature. -/
def alwaysBoom : Nat → OpResult Nat := fun _ => OpResult.failure "boom"

/-- An operation that always raises a rate-limit-signatured failure. -/
def alwaysRateLimited : Nat → OpResult Nat := fun _ => OpResult.failure "rate limit exceeded"

/-- An operation that raises a rate-limit-signatured failure once, then
returns 42 with no headers attribute. -/
def onceThenSuccess : Nat → OpResult Nat := fun n =>
  if n = 0 then OpResult.failure "rate limit exceeded" else OpResult.success 42 none

/-- Headers advertising a zero total quota. -/
def zeroLimitHeaders : Headers := fun k =>
  if k = "X-RateLimit-Limit" then some "0"
  else if k = "X-RateLimit-Remaining" then some "0"
  else if k = "X-RateLimit-Reset" then some "0"
  else if k = "X-RateLimit-Used" then some "0"
  else none

/-- An operation that raises a rate-limit-signatured failure once, then
returns 42 carrying zero-limit headers. -/
def onceThenZeroLimit : Nat → OpResult Nat := fun n =>
  if n = 0 then OpResult.failure "rate limit exceeded"
  else OpResult.success 42 (some zeroLimitHeaders)

/-- A header map whose limit field is not numeric. -/
def badHeaders : Headers := fun k =>
  if k = "X-RateLimit-Limit" then some "abc" else none

/-- A header map with no X-RateLimit-Reset key and well-formed other fields. -/
def noResetHeaders : Headers := fun k =>
  if k = "X-RateLimit-Limit" then some "5000"
  else if k = "X-RateLimit-Remaining" then some "4999"
  else if k = "X-RateLimit-Used" then some "1"
  else none

/-- A state whose stored snapshot for "op" has the epoch as reset time. -/
def storedEpochState : GovState :=
  ⟨fun k => if k = "op" then some ⟨5000, 4999, 0, 1⟩ else none, fun _ => none⟩

/-- A state where "op" has already used five retries. -/
def exhaustedState : GovState :=
  ⟨fun _ => none, fun k => if k = "op" then some 5 else none⟩

/-- A state with two retry counters and one snapshot, for the reset theorems. -/
def c8State : GovState :=
  ⟨fun k => if k = "op1" then some ⟨5000, 4999, 0, 1⟩ else none,
   fun k => if k = "op1" then some 2 else if k = "op2" then some 3 else none⟩

/-- max_retries lowered to 2, everything else at the defaults. -/
def twoRetryConfig : RateLimitConfig := { defaultConfig with max_retries := 2 }

/-! Helper lemmas shared by the claim theorems. -/

theorem setDefaultZero_count (s : GovState) (op_id : String) :
    (setDefaultZero s op_id).retry_counts op_id = some ((s.retry_counts op_id).getD 0) := by
  simp [setDefaultZero]

theorem setDefaultZero_rate_limits (s : GovState) (op_id : String) :
    (setDefaultZero s op_id).rate_limits = s.rate_limits := rfl

theorem bumpCount_count_self (s : GovState) (op_id : String) :
    (bumpCount s op_id).retry_counts op_id = some ((s.retry_counts op_id).getD 0 + 1) := by
  simp [bumpCount]

theorem bumpCount_rate_limits (s : GovState) (op_id : String) :
    (bumpCount s op_id).rate_limits = s.rate_limits := rfl

/-- One loop iteration on a failure without the rate-limit signature:
the counter is incremented, then the exception is re-raised. -/
theorem retryLoop_nonratelimit_step (cfg : RateLimitConfig) (now : Int)
    (op : Nat → OpResult α) (op_id : String) (fuel : Nat) (s : GovState) (n : Nat)
    (ws : List WaitEvent) (msg : String)
    (hn : op n = OpResult.failure msg) (hsig : isRateLimitMessage msg = false) :
    retryLoop cfg now op op_id (fuel + 1) s n ws =
      ⟨ExecResult.propagated msg, bumpCount s op_id, n + 1, ws⟩ := by
  rw [retryLoop, hn]
  simp [hsig]

/-- A successful invocation returns the operation's result unchanged, as long
as the preemptive quota check cannot raise (its division has a nonzero
divisor whenever it is reached). -/
theorem retryLoop_success_returns (cfg : RateLimitConfig) (now : Int)
    (op : Nat → OpResult α) (op_id : String) (fuel : Nat) (s : GovState) (n : Nat)
    (ws : List WaitEvent) (v : α) (hdrs : Option Headers)
    (hn : op n = OpResult.success v hdrs)
    (hsr : ∀ h info, hdrs = some h → parse_rate_limit_headers h = some info →
        should_retry cfg ((s.retry_counts op_id).getD 0) info ≠ none) :
    (retryLoop cfg now op op_id (fuel + 1) s n ws).result = ExecResult.ok v hdrs ∧
    (retryLoop cfg now op op_id (fuel + 1) s n ws).invocations = n + 1 := by
  rw [retryLoop, hn]
  cases hdrs with
  | none => exact ⟨rfl, rfl⟩
  | some h =>
    cases hp : parse_rate_limit_headers h with
    | none =>
      simp [hp]
    | some info =>
      have hne := hsr h info rfl hp
      cases hb : should_retry cfg ((s.retry_counts op_id).getD 0) info with
      | none => exact absurd hb hne
      | some b =>
        simp only [hp]
        cases b <;> simp [hb]

/-- One loop iteration on a rate-limit-signatured failure: the counter is
incremented, then the wait branch depends on whether a snapshot is stored. -/
theorem retryLoop_ratelimit_step (cfg : RateLimitConfig) (now : Int)
    (op : Nat → OpResult α) (op_id : String) (fuel : Nat) (s : GovState) (n : Nat)
    (ws : List WaitEvent) (msg : String)
    (hn : op n = OpResult.failure msg) (hsig : isRateLimitMessage msg = true) :
    retryLoop cfg now op op_id (fuel + 1) s n ws =
      (match (bumpCount s op_id).rate_limits op_id with
       | some info => retryLoop cfg now op op_id fuel (bumpCount s op_id) (n + 1)
           (ws ++ [WaitEvent.resetWait (wait_for_reset now info.reset)])
       | none => retryLoop cfg now op op_id fuel (bumpCount s op_id) (n + 1)
           (ws ++ [WaitEvent.backoff (((bumpCount s op_id).retry_counts op_id).getD 0)])) := by
  rw [retryLoop, hn]
  simp [hsig]

/-- When every invocation raises a rate-limit-signatured failure, the loop
burns all its fuel, invoking the operation once per unit, and ends in the
RetryExhausted error naming the id and the configured max_retries. -/
theorem retryLoop_all_ratelimited (cfg : RateLimitConfig) (now : Int)
    (op : Nat → OpResult α) (op_id : String)
    (hfail : ∀ n, ∃ msg, op n = OpResult.failure msg ∧ isRateLimitMessage msg = true) :
    ∀ fuel s n ws,
      (retryLoop cfg now op op_id fuel s n ws).result
        = ExecResult.exhausted op_id cfg.max_retries ∧
      (retryLoop cfg now op op_id fuel s n ws).invocations = n + fuel := by
  intro fuel
  induction fuel with
  | zero => intro s n ws; exact ⟨rfl, rfl⟩
  | succ f ih =>
    intro s n ws
    obtain ⟨msg, hm, hs⟩ := hfail n
    rw [retryLoop_ratelimit_step cfg now op op_id f s n ws msg hm hs]
    cases hrl : (bumpCount s op_id).rate_limits op_id with
    | some info =>
      have := ih (bumpCount s op_id) (n + 1)
        (ws ++ [WaitEvent.resetWait (wait_for_reset now info.reset)])
      exact ⟨this.1, by rw [this.2]; omega⟩
    | none =>
      have := ih (bumpCount s op_id) (n + 1)
        (ws ++ [WaitEvent.backoff (((bumpCount s op_id).retry_counts op_id).getD 0)])
      exact ⟨this.1, by rw [this.2]; omega⟩

/-- _parse_rate_limit_headers yields the empty dict as soon as one of the
four field conversions raises. -/
theorem parse_eq_none_of_headerInt_none (h : Headers)
    (hn : headerInt h "X-RateLimit-Limit" = none ∨
          headerInt h "X-RateLimit-Remaining" = none ∨
          headerInt h "X-RateLimit-Reset" = none ∨
          headerInt h "X-RateLimit-Used" = none) :
    parse_rate_limit_headers h = none := by
  unfold parse_rate_limit_headers
  repeat' split
  all_goals first
  | rfl
  | simp_all

/-! Claim theorems. -/

/-- C6: for every attempt a with jitter disabled, the backoff delay is
exactly min(initial_delay * factor^a, max_delay). -/
theorem c6_get_delay_without_jitter (b : BackoffStrategy) (a : Nat) (j : ℚ)
    (h : b.enable_jitter = false) :
    b.get_delay a j = min (b.initial_delay * b.factor ^ a) b.max_delay := by
  simp [BackoffStrategy.get_delay, h]

/-- Witness for C6 at the test suite's strategy and attempt 4. -/
theorem c6_witness :
    (⟨1, 10, 2, false, 0⟩ : BackoffStrategy).enable_jitter = false ∧
    (⟨1, 10, 2, false, 0⟩ : BackoffStrategy).get_delay 4 0 = min ((1 : ℚ) * 2 ^ 4) 10 :=
  ⟨rfl, c6_get_delay_without_jitter ⟨1, 10, 2, false, 0⟩ 4 0 rfl⟩

/-- C3: _should_retry is False whenever the recorded count is at least
max_retries, regardless of the snapshot; otherwise, with a positive limit,
it is True exactly when remaining/limit is at most the threshold. -/
theorem c3_should_retry_characterisation (cfg : RateLimitConfig) (count : Nat)
    (info : QuotaSnapshot) :
    (cfg.max_retries ≤ count → should_retry cfg count info = some false) ∧
    (count < cfg.max_retries → 0 < info.limit →
      (should_retry cfg count info = some true ↔
        (info.remaining : ℚ) / (info.limit : ℚ) ≤ cfg.rate_limit_threshold)) := by
  constructor
  · intro h
    simp [should_retry, h]
  · intro h hl
    simp [should_retry, Nat.not_le.mpr h, ne_of_gt hl]

/-- Witness for C3: count 5 beats the default max_retries; at count 0,
50/5000 remaining is under the 10 percent threshold. -/
theorem c3_witness :
    should_retry defaultConfig 5 ⟨5000, 4000, 0, 1000⟩ = some false ∧
    should_retry defaultConfig 0 ⟨5000, 50, 0, 4950⟩ = some true := by
  constructor
  · exact (c3_should_retry_characterisation defaultConfig 5 ⟨5000, 4000, 0, 1000⟩).1 (by decide)
  · exact ((c3_should_retry_characterisation defaultConfig 0 ⟨5000, 50, 0, 4950⟩).2
      (by decide) (by decide)).mpr (by norm_num [defaultConfig])

/-- C2 counterexample: at limit 0 with retries left, _should_retry does not
return False; it raises ZeroDivisionError (none in this model). -/
theorem c2_counterexample :
    should_retry defaultConfig 0 ⟨0, 5000, 0, 0⟩ ≠ some false := by decide

/-- C2 as amended: with retries left and limit = 0, _should_retry raises
ZeroDivisionError (none) because the remaining/limit division is unguarded. -/
theorem c2_zero_limit_raises (cfg : RateLimitConfig) (count : Nat) (info : QuotaSnapshot)
    (h : count < cfg.max_retries) (h0 : info.limit = 0) :
    should_retry cfg count info = none := by
  simp [should_retry, Nat.not_le.mpr h, h0]

/-- Witness for the amended C2 at count 0 and a zero-limit snapshot. -/
theorem c2_witness :
    (0 : Nat) < defaultConfig.max_retries ∧
    should_retry defaultConfig 0 ⟨0, 5000, 0, 0⟩ = none :=
  ⟨by decide, c2_zero_limit_raises defaultConfig 0 ⟨0, 5000, 0, 0⟩ (by decide) rfl⟩

/-- C7: whenever some recognized rate-limit field holds a value the integer
conversion rejects, parsing returns the empty snapshot (no failure escapes). -/
theorem c7_malformed_header_yields_empty (h : Headers)
    (hmal : ∃ k ∈ ["X-RateLimit-Limit", "X-RateLimit-Remaining",
                   "X-RateLimit-Reset", "X-RateLimit-Used"],
      ∃ v, h k = some v ∧ pyInt v = none) :
    parse_rate_limit_headers h = none := by
  obtain ⟨k, hk, v, hv, hpv⟩ := hmal
  apply parse_eq_none_of_headerInt_none
  have hint : headerInt h k = none := by
    unfold headerInt
    rw [hv]
    exact hpv
  simp only [List.mem_cons, List.not_mem_nil, or_false] at hk
  rcases hk with rfl | rfl | rfl | rfl
  · exact Or.inl hint
  · exact Or.inr (Or.inl hint)
  · exact Or.inr (Or.inr (Or.inl hint))
  · exact Or.inr (Or.inr (Or.inr hint))

/-- Witness for C7: a header map whose limit field is the non-numeric "abc". -/
theorem c7_witness :
    (∃ k ∈ ["X-RateLimit-Limit", "X-RateLimit-Remaining",
            "X-RateLimit-Reset", "X-RateLimit-Used"],
      ∃ v, badHeaders k = some v ∧ pyInt v = none) ∧
    parse_rate_limit_headers badHeaders = none := by
  refine ⟨⟨"X-RateLimit-Limit", by decide, "abc", rfl, by decide⟩, ?_⟩
  exact c7_malformed_header_yields_empty badHeaders
    ⟨"X-RateLimit-Limit", by decide, "abc", rfl, by decide⟩

/-- C8 counterexample: resetting the specific id "" does not leave other ids
untouched — the empty string is falsy, so the source clears every counter:
op1's counter, 2 beforehand, is gone afterwards. -/
theorem c8_counterexample :
    c8State.retry_counts "op1" = some 2 ∧
    (reset_counts c8State (some "")).retry_counts "op1" = none ∧
    (reset_counts c8State (some "")).retry_counts "op1" ≠ c8State.retry_counts "op1" :=
  ⟨rfl, rfl, by decide⟩

/-- C8 as amended: reset with a specific non-empty id removes only that id's
counter, leaving every other id's counter unchanged; reset with no id, or
with the falsy empty string, clears all counters; and in every case the
stored snapshots are unchanged. -/
theorem c8_reset_counts_frame (s : GovState) (oid : String) (hne : oid ≠ "") :
    (reset_counts s (some oid)).retry_counts oid = none ∧
    (∀ k, k ≠ oid → (reset_counts s (some oid)).retry_counts k = s.retry_counts k) ∧
    (∀ k, (reset_counts s none).retry_counts k = none) ∧
    (∀ k, (reset_counts s (some "")).retry_counts k = none) ∧
    (reset_counts s (some oid)).rate_limits = s.rate_limits ∧
    (reset_counts s none).rate_limits = s.rate_limits ∧
    (reset_counts s (some "")).rate_limits = s.rate_limits := by
  refine ⟨?_, ?_, fun k => rfl, fun k => rfl, ?_, rfl, rfl⟩
  · simp [reset_counts, hne]
  · intro k hk
    simp [reset_counts, hne, hk]
  · simp [reset_counts, hne]

/-- Witness for the amended C8 on a state holding counters for op1 and op2. -/
theorem c8_witness :
    (reset_counts c8State (some "op1")).retry_counts "op1" = none ∧
    (reset_counts c8State (some "op1")).retry_counts "op2" = c8State.retry_counts "op2" ∧
    (reset_counts c8State none).retry_counts "op2" = none ∧
    (reset_counts c8State (some "")).retry_counts "op2" = none ∧
    (reset_counts c8State (some "op1")).rate_limits = c8State.rate_limits :=
  ⟨(c8_reset_counts_frame c8State "op1" (by decide)).1,
   (c8_reset_counts_frame c8State "op1" (by decide)).2.1 "op2" (by decide),
   (c8_reset_counts_frame c8State "op1" (by decide)).2.2.1 "op2",
   (c8_reset_counts_frame c8State "op1" (by decide)).2.2.2.1 "op2",
   (c8_reset_counts_frame c8State "op1" (by decide)).2.2.2.2.1⟩

/-- C1 counterexample: a failure without the rate-limit signature does
propagate unwrapped after one invocation, but the retry counter for the id
ends at 1, not at its pre-invocation value 0. -/
theorem c1_counterexample :
    (execute_with_retry defaultConfig 0 alwaysBoom "op" emptyState).result
      = ExecResult.propagated "boom" ∧
    (execute_with_retry defaultConfig 0 alwaysBoom "op" emptyState).invocations = 1 ∧
    (execute_with_retry defaultConfig 0 alwaysBoom "op" emptyState).state.retry_counts "op"
      ≠ some 0 ∧
    (execute_with_retry defaultConfig 0 alwaysBoom "op" emptyState).state.retry_counts "op"
      = some 1 :=
  ⟨rfl, rfl, by decide, by decide⟩

/-- C1 as amended: a non-rate-limit failure propagates unwrapped on its first
occurrence, with exactly one invocation and no waits, but the except block
has already incremented the operation's retry counter by one. -/
theorem c1_nonratelimit_propagates (cfg : RateLimitConfig) (now : Int)
    (op : Nat → OpResult α) (op_id : String) (s : GovState) (msg : String)
    (hfail : op 0 = OpResult.failure msg) (hsig : isRateLimitMessage msg = false)
    (hcount : (s.retry_counts op_id).getD 0 < cfg.max_retries) :
    (execute_with_retry cfg now op op_id s).result = ExecResult.propagated msg ∧
    (execute_with_retry cfg now op op_id s).invocations = 1 ∧
    (execute_with_retry cfg now op op_id s).waits = [] ∧
    (execute_with_retry cfg now op op_id s).state.retry_counts op_id
      = some ((s.retry_counts op_id).getD 0 + 1) := by
  have hfuel : cfg.max_retries - ((setDefaultZero s op_id).retry_counts op_id).getD 0
      = (cfg.max_retries - (s.retry_counts op_id).getD 0 - 1) + 1 := by
    rw [setDefaultZero_count]
    simp only [Option.getD_some]
    omega
  simp only [execute_with_retry, hfuel]
  rw [retryLoop_nonratelimit_step cfg now op op_id _ (setDefaultZero s op_id) 0 [] msg
    hfail hsig]
  refine ⟨rfl, rfl, rfl, ?_⟩
  rw [bumpCount_count_self, setDefaultZero_count]
  simp

/-- Witness for the amended C1 on a fresh state and a plain "boom" failure. -/
theorem c1_witness :
    (execute_with_retry defaultConfig 0 alwaysBoom "opw" emptyState).result
      = ExecResult.propagated "boom" ∧
    (execute_with_retry defaultConfig 0 alwaysBoom "opw" emptyState).invocations = 1 ∧
    (execute_with_retry defaultConfig 0 alwaysBoom "opw" emptyState).waits = [] ∧
    (execute_with_retry defaultConfig 0 alwaysBoom "opw" emptyState).state.retry_counts "opw"
      = some ((emptyState.retry_counts "opw").getD 0 + 1) :=
  c1_nonratelimit_propagates defaultConfig 0 alwaysBoom "opw" emptyState "boom"
    rfl (by decide) (by decide)

/-- C9: when the stored retry count already reaches max_retries at entry,
execute_with_retry raises the RetryExhausted error at once, with zero
invocations of the operation. -/
theorem c9_exhausted_without_invocation (cfg : RateLimitConfig) (now : Int)
    (op : Nat → OpResult α) (op_id : String) (s : GovState)
    (h : cfg.max_retries ≤ (s.retry_counts op_id).getD 0) :
    (execute_with_retry cfg now op op_id s).result
      = ExecResult.exhausted op_id cfg.max_retries ∧
    (execute_with_retry cfg now op op_id s).invocations = 0 := by
  have hfuel : cfg.max_retries - ((setDefaultZero s op_id).retry_counts op_id).getD 0 = 0 := by
    rw [setDefaultZero_count]
    simp only [Option.getD_some]
    omega
  simp only [execute_with_retry, hfuel]
  exact ⟨rfl, rfl⟩

/-- Witness for C9: a persisted count of 5 against the default max_retries 5. -/
theorem c9_witness :
    defaultConfig.max_retries ≤ (exhaustedState.retry_counts "op").getD 0 ∧
    (execute_with_retry defaultConfig 0 alwaysBoom "op" exhaustedState).result
      = ExecResult.exhausted "op" defaultConfig.max_retries ∧
    (execute_with_retry defaultConfig 0 alwaysBoom "op" exhaustedState).invocations = 0 :=
  ⟨by decide,
   (c9_exhausted_without_invocation defaultConfig 0 alwaysBoom "op" exhaustedState (by decide)).1,
   (c9_exhausted_without_invocation defaultConfig 0 alwaysBoom "op" exhaustedState (by decide)).2⟩

/-- C4: with max_retries = 2, an operation that always raises a
rate-limit-signatured failure ends in the RetryExhausted error naming the
id and the configured max_retries, after exactly 2 invocations. -/
theorem c4_two_ratelimit_failures_exhaust (cfg : RateLimitConfig) (now : Int)
    (op : Nat → OpResult α) (op_id : String) (s : GovState)
    (hm2 : cfg.max_retries = 2)
    (hfail : ∀ n, ∃ msg, op n = OpResult.failure msg ∧ isRateLimitMessage msg = true)
    (hcount : (s.retry_counts op_id).getD 0 = 0) :
    (execute_with_retry cfg now op op_id s).result
      = ExecResult.exhausted op_id cfg.max_retries ∧
    (execute_with_retry cfg now op op_id s).invocations = 2 := by
  have hfuel : cfg.max_retries - ((setDefaultZero s op_id).retry_counts op_id).getD 0 = 2 := by
    rw [setDefaultZero_count]
    simp only [Option.getD_some]
    omega
  simp only [execute_with_retry, hfuel]
  exact retryLoop_all_ratelimited cfg now op op_id hfail 2 (setDefaultZero s op_id) 0 []

/-- Witness for C4 at max_retries 2 and the literal failure message
"rate limit exceeded". -/
theorem c4_witness :
    (execute_with_retry twoRetryConfig 0 alwaysRateLimited "op" emptyState).result
      = ExecResult.exhausted "op" twoRetryConfig.max_retries ∧
    (execute_with_retry twoRetryConfig 0 alwaysRateLimited "op" emptyState).invocations = 2 :=
  c4_two_ratelimit_failures_exhaust twoRetryConfig 0 alwaysRateLimited "op" emptyState rfl
    (fun _ => ⟨"rate limit exceeded", rfl, by decide⟩) rfl

/-- C5 counterexample: the operation fails once with the rate-limit signature
and then returns 42, yet because the returned headers advertise limit 0 the
preemptive quota check raises ZeroDivisionError and execute_with_retry
propagates it instead of returning the success result. -/
theorem c5_counterexample :
    (execute_with_retry defaultConfig 0 onceThenZeroLimit "op" emptyState).result
      = ExecResult.propagated "division by zero" ∧
    (execute_with_retry defaultConfig 0 onceThenZeroLimit "op" emptyState).invocations = 2 :=
  ⟨rfl, rfl⟩

/-- C5 as amended: if the single rate-limit failure is followed by a success
whose headers, when present and parseable, report a nonzero limit, then
execute_with_retry returns that success result unchanged after exactly 2
invocations. -/
theorem c5_one_ratelimit_then_success (cfg : RateLimitConfig) (now : Int)
    (op : Nat → OpResult α) (op_id : String) (s : GovState) (msg : String) (v : α)
    (hdrs : Option Headers)
    (hm : 2 ≤ cfg.max_retries)
    (h0 : op 0 = OpResult.failure msg) (hsig : isRateLimitMessage msg = true)
    (h1 : op 1 = OpResult.success v hdrs)
    (hcount : (s.retry_counts op_id).getD 0 = 0)
    (hlim : ∀ h info, hdrs = some h → parse_rate_limit_headers h = some info →
      info.limit ≠ 0) :
    (execute_with_retry cfg now op op_id s).result = ExecResult.ok v hdrs ∧
    (execute_with_retry cfg now op op_id s).invocations = 2 := by
  have hfuel : cfg.max_retries - ((setDefaultZero s op_id).retry_counts op_id).getD 0
      = (cfg.max_retries - 2 + 1) + 1 := by
    rw [setDefaultZero_count]
    simp only [Option.getD_some]
    omega
  simp only [execute_with_retry, hfuel]
  rw [retryLoop_ratelimit_step cfg now op op_id _ (setDefaultZero s op_id) 0 [] msg h0 hsig]
  set s1 := bumpCount (setDefaultZero s op_id) op_id with hs1
  have hc1 : (s1.retry_counts op_id).getD 0 = 1 := by
    rw [hs1, bumpCount_count_self, setDefaultZero_count]
    simp [hcount]
  have hsr : ∀ h info, hdrs = some h → parse_rate_limit_headers h = some info →
      should_retry cfg ((s1.retry_counts op_id).getD 0) info ≠ none := by
    intro h info hh hp
    rw [hc1]
    have hl := hlim h info hh hp
    have hmx : ¬ cfg.max_retries ≤ 1 := by omega
    simp [should_retry, hmx, hl]
  cases hrl : s1.rate_limits op_id with
  | some info =>
    exact retryLoop_success_returns cfg now op op_id (cfg.max_retries - 2) s1 1 _ v hdrs h1 hsr
  | none =>
    exact retryLoop_success_returns cfg now op op_id (cfg.max_retries - 2) s1 1 _ v hdrs h1 hsr

/-- Witness for the amended C5: fail once with the signature, then return 42
with no headers attribute. -/
theorem c5_witness :
    (execute_with_retry defaultConfig 0 onceThenSuccess "op" emptyState).result
      = ExecResult.ok 42 none ∧
    (execute_with_retry defaultConfig 0 onceThenSuccess "op" emptyState).invocations = 2 :=
  c5_one_ratelimit_then_success defaultConfig 0 onceThenSuccess "op" emptyState
    "rate limit exceeded" 42 none (by decide) rfl (by decide) rfl rfl
    (fun h info hh _ => nomatch hh)

/-- The reset component stored by a successful parse is exactly what
headerInt read for X-RateLimit-Reset. -/
theorem parse_reset_component (hmap : Headers) (info : QuotaSnapshot)
    (hp : parse_rate_limit_headers hmap = some info) :
    headerInt hmap "X-RateLimit-Reset" = some info.reset := by
  unfold parse_rate_limit_headers at hp
  repeat' split at hp
  any_goals exact Option.noConfusion hp
  injection hp with hp'
  subst hp'
  assumption

/-- C10: a snapshot parsed from headers with no X-RateLimit-Reset key carries
the Unix epoch (0) as reset; while such a snapshot is stored for the id,
every rate-limit-classified failure takes the wait-until-reset branch with
a zero-second sleep, never the exponential-backoff branch. -/
theorem c10_absent_reset_is_epoch_zero_wait (hmap : Headers) (now : Int)
    (cfg : RateLimitConfig) (op : Nat → OpResult α) (op_id : String) (msg : String)
    (info : QuotaSnapshot)
    (hnores : hmap "X-RateLimit-Reset" = none)
    (hparse : parse_rate_limit_headers hmap = some info)
    (hnow : 0 ≤ now)
    (hsig : isRateLimitMessage msg = true) :
    info.reset = 0 ∧
    wait_for_reset now info.reset = 0 ∧
    (∀ fuel s n ws, s.rate_limits op_id = some info → op n = OpResult.failure msg →
      retryLoop cfg now op op_id (fuel + 1) s n ws =
        retryLoop cfg now op op_id fuel (bumpCount s op_id) (n + 1)
          (ws ++ [WaitEvent.resetWait 0])) := by
  have hri : headerInt hmap "X-RateLimit-Reset" = some 0 := by
    unfold headerInt
    rw [hnores]
  have h2 := parse_reset_component hmap info hparse
  rw [hri] at h2
  have hreset : info.reset = 0 := by
    injection h2 with h
    omega
  have hwait : wait_for_reset now info.reset = 0 := by
    rw [hreset]
    unfold wait_for_reset
    rw [if_neg (by omega)]
  refine ⟨hreset, hwait, ?_⟩
  intro fuel s n ws hrl hn
  rw [retryLoop_ratelimit_step cfg now op op_id fuel s n ws msg hn hsig]
  have hrl' : (bumpCount s op_id).rate_limits op_id = some info := hrl
  simp only [hrl', hwait]

/-- Witness for C10: headers without a reset key parse to the epoch snapshot,
and with that snapshot stored a rate-limit failure appends a zero-second
reset wait. -/
theorem c10_witness :
    (⟨5000, 4999, 0, 1⟩ : QuotaSnapshot).reset = 0 ∧
    wait_for_reset 100 (⟨5000, 4999, 0, 1⟩ : QuotaSnapshot).reset = 0 ∧
    retryLoop defaultConfig 100 alwaysRateLimited "op" 1 storedEpochState 0 [] =
      retryLoop defaultConfig 100 alwaysRateLimited "op" 0 (bumpCount storedEpochState "op") 1
        [WaitEvent.resetWait 0] := by
  have H := c10_absent_reset_is_epoch_zero_wait noResetHeaders 100 defaultConfig
    alwaysRateLimited "op" "rate limit exceeded" ⟨5000, 4999, 0, 1⟩
    rfl (by decide) (by decide) (by decide)
  exact ⟨H.1, H.2.1, H.2.2 0 storedEpochState 0 [] rfl rfl⟩
